import Mathlib

/-!
# Verification of the Clario client auth module

Shallow embedding of the client-side auth layer of the Clario front-end:
the token store, the authenticated request wrapper, the OAuth callback
flow, the route guard and the logout handler
(`src/utils/auth.js`, `src/pages/OAuthCallback.jsx`, `src/pages/AboutUs.jsx`,
the route table in the app component).

Browser `localStorage` is modelled as a state holding the value stored
under the fixed key `access_token` together with a flag saying whether
storage access throws.  JavaScript values that matter here (strings that
may be `null`, parsed JSON) are modelled explicitly, with JS truthiness
made explicit.
-/

namespace Clario

/-- Browser persistent storage restricted to the single key
`access_token` used by the module.  `failing = true` models a storage
whose accessors throw (storage unavailable / quota / privacy mode). -/
structure Storage where
  token : Option String
  failing : Bool
  deriving Repr, DecidableEq

/-- JS truthiness of a `string | null` value: `null` and `""` are falsy. -/
def jsTruthy : Option String → Bool
  | none => false
  | some s => !(s = "")

/-- Raw `localStorage.getItem('access_token')`: throws when storage is
unavailable, otherwise returns the stored string or `null`. -/
def rawGetItem (s : Storage) : Except Unit (Option String) :=
  if s.failing then .error () else .ok s.token

/-- Raw `localStorage.setItem('access_token', v)`. -/
def rawSetItem (s : Storage) (v : String) : Except Unit Storage :=
  if s.failing then .error () else .ok { s with token := some v }

/-- Raw `localStorage.removeItem('access_token')`. -/
def rawRemoveItem (s : Storage) : Except Unit Storage :=
  if s.failing then .error () else .ok { s with token := none }

/-- `try { body } catch {}` returning the fallback state when the body
throws. -/
def attempt {α : Type} (body : Except Unit α) (fallback : α) : α :=
  match body with
  | .ok a => a
  | .error _ => fallback

/-- `setToken` from `src/utils/auth.js`:
`try { if (token) localStorage.setItem(TOKEN_KEY, token); } catch {}`.
The argument is a `string | null` value (`none` models `null`/`undefined`). -/
def setToken (token : Option String) (s : Storage) : Storage :=
  attempt
    (if jsTruthy token then rawSetItem s (token.getD "") else .ok s)
    s

/-- `getToken` from `src/utils/auth.js`:
`try { return localStorage.getItem(TOKEN_KEY); } catch { return null; }`. -/
def getToken (s : Storage) : Option String :=
  attempt (rawGetItem s) none

/-- `removeToken` from `src/utils/auth.js`:
`try { localStorage.removeItem(TOKEN_KEY); } catch {}`. -/
def removeToken (s : Storage) : Storage :=
  attempt (rawRemoveItem s) s

/-- `isAuthenticated` from `src/utils/auth.js`: `!!getToken()`. -/
def isAuthenticated (s : Storage) : Bool :=
  jsTruthy (getToken s)

/-! ## Parsed JSON values -/

/-- A parsed JSON value, as produced by `response.json()`. -/
inductive JsValue where
  | null : JsValue
  | bool : Bool → JsValue
  | num : Int → JsValue
  | str : String → JsValue
  | arr : List JsValue → JsValue
  | obj : List (String × JsValue) → JsValue
  deriving Repr

/-- Property access `v.f` on a parsed JSON value: `some` when `v` is an
object with field `f`, `none` for `undefined`. -/
def JsValue.field : JsValue → String → Option JsValue
  | .obj fields, f => fields.lookup f
  | _, _ => none

/-- JS truthiness of a JSON value. -/
def JsValue.truthy : JsValue → Bool
  | .null => false
  | .bool b => b
  | .num n => !(n = 0)
  | .str s => !(s = "")
  | .arr _ => true
  | .obj _ => true

/-- JS `String(v)` coercion, as applied when a value is written to
`localStorage`. -/
def JsValue.asString : JsValue → String
  | .null => "null"
  | .bool b => if b then "true" else "false"
  | .num n => toString n
  | .str s => s
  | .arr _ => ""
  | .obj _ => "[object Object]"

/-! ## The HTTP layer -/

/-- One outgoing HTTP request as issued by `fetch`. -/
structure NetCall where
  url : String
  method : String
  headers : List (String × String)
  deriving Repr, DecidableEq

/-- A transport response.  `jsonBody` is the result of attempting to
parse the body as JSON (`none` = unparseable body, so that
`response.json()` rejects). -/
structure FetchResponse where
  ok : Bool
  status : Nat
  jsonBody : Option JsValue

/-- The network, abstracted: what `fetch` resolves (or rejects, `.error`)
with for each issued call. -/
def Network : Type := NetCall → Except String FetchResponse

/-- JS object spread `{...a, ...b}`: entries of `b` override entries of
`a` with the same key. -/
def mergeObj (a b : List (String × String)) : List (String × String) :=
  a.filter (fun p => (b.lookup p.1).isNone) ++ b

/-- The header object built by `apiRequest` in `src/utils/auth.js`:
`{'Content-Type': 'application/json', ...(options.headers || {}),
...(token ? {'Authorization': `Bearer ${token}`} : {})}`. -/
def buildHeaders (optHeaders : List (String × String)) (token : Option String) :
    List (String × String) :=
  mergeObj
    (mergeObj [("Content-Type", "application/json")] optHeaders)
    (if jsTruthy token then [("Authorization", "Bearer " ++ token.getD "")] else [])

/-- `apiRequest` from `src/utils/auth.js`: reads the token, builds the
headers, issues the fetch and returns the raw response.  The second
component is the trace of network calls issued. -/
def apiRequest (net : Network) (url : String) (method : String)
    (optHeaders : List (String × String)) (s : Storage) :
    Except String FetchResponse × List NetCall :=
  let token := getToken s
  let headers := buildHeaders optHeaders token
  let call : NetCall := ⟨url, method, headers⟩
  (net call, [call])

/-- `handleApiResponse` from `src/utils/auth.js`: on a non-ok response,
parse the error payload (falling back to `{message: 'Network error'}`
when the body is unparseable) and throw `error.message || 'HTTP <status>'`;
on an ok response, return the parsed JSON body (`response.json()`
rejecting when the body is unparseable). -/
def handleApiResponse (r : FetchResponse) : Except String JsValue :=
  if !r.ok then
    let error : JsValue :=
      match r.jsonBody with
      | some v => v
      | none => .obj [("message", .str "Network error")]
    .error
      (match error.field "message" with
       | some m => if m.truthy then m.asString else "HTTP " ++ toString r.status
       | none => "HTTP " ++ toString r.status)
  else
    match r.jsonBody with
    | some v => .ok v
    | none => .error "SyntaxError"

/-- `authenticatedRequest` from `src/utils/auth.js`: throws
`'Not authenticated'` when `getToken()` is falsy, before any network
call; otherwise runs `apiRequest` and pipes the response through
`handleApiResponse`. -/
def authenticatedRequest (net : Network) (url : String) (method : String)
    (optHeaders : List (String × String)) (s : Storage) :
    Except String JsValue × List NetCall :=
  let token := getToken s
  if !jsTruthy token then
    (.error "Not authenticated", [])
  else
    let (res, calls) := apiRequest net url method optHeaders s
    match res with
    | .error e => (.error e, calls)
    | .ok r => (handleApiResponse r, calls)

/-! ## The OAuth callback flow (`src/pages/OAuthCallback.jsx`) -/

/-- Observable events of one run of `handleCallback`, in order. -/
inductive CbEvent where
  | exchangeCall (url : String)
  | tokenStored (value : String)
  | navScheduled (path : String) (delayMs : Nat)
  deriving Repr, DecidableEq

/-- The outcome of one run of `handleCallback`: its ordered event trace,
the storage afterwards, and the component state (`status`, `error`). -/
structure CbState where
  events : List CbEvent
  storage : Storage
  status : String
  errorMsg : Option String
  deriving Repr

/-- The code-exchange URL built in `handleCallback`. -/
def exchangeUrl (code : String) : String :=
  "http://localhost:8000/api/v1/auth/google/callback?code=" ++ code

/-- The `catch` branch of `handleCallback`: record the error message,
set the failure status and schedule navigation to `/login` after 3000ms. -/
def cbFail (s : Storage) (evs : List CbEvent) (msg : String) : CbState :=
  { events := evs ++ [.navScheduled "/login" 3000], storage := s,
    status := "Sign-in failed", errorMsg := some msg }

/-- `handleCallback` from `src/pages/OAuthCallback.jsx`: read `code` and
`error` from the query string; throw on a truthy `error`, then on a
falsy `code`; otherwise fetch the code-exchange endpoint, run the
response through `handleApiResponse`, and when the result has
`status === 'success'` and a truthy `data?.access_token`, store the
token and schedule navigation to `/profile` after 1500ms.  Every thrown
error lands in the shared `catch` (`cbFail`). -/
def handleCallback (net : Network) (query : List (String × String)) (s : Storage) :
    CbState :=
  let code := query.lookup "code"
  let error := query.lookup "error"
  if jsTruthy error then
    cbFail s [] ("OAuth error: " ++ error.getD "")
  else if !jsTruthy code then
    cbFail s [] "No authorization code received"
  else
    let c := code.getD ""
    let callEv := CbEvent.exchangeCall (exchangeUrl c)
    match net ⟨exchangeUrl c, "GET", []⟩ with
    | .error e => cbFail s [callEv] e
    | .ok resp =>
      match handleApiResponse resp with
      | .error e => cbFail s [callEv] e
      | .ok result =>
        let statusOk : Bool :=
          match result.field "status" with
          | some (.str s) => s = "success"
          | _ => false
        let tokVal : Option JsValue :=
          (result.field "data").bind (fun d => d.field "access_token")
        match tokVal with
        | some v =>
          if statusOk && v.truthy then
            { events := [callEv, .tokenStored v.asString,
                         .navScheduled "/profile" 1500],
              storage := setToken (some v.asString) s,
              status := "Sign-in successful! Redirecting...",
              errorMsg := none }
          else
            cbFail s [callEv] "No access token received from server"
        | none =>
          cbFail s [callEv] "No access token received from server"

/-! ## Route guard -/

/-- What a guarded route does on a visit. -/
inductive GuardOutcome where
  | render : GuardOutcome
  | redirect : String → GuardOutcome
  deriving Repr, DecidableEq

/-- Modelled from the spec: the `ProtectedRoute` component
(`src/components/ProtectedRoute.jsx` is absent from the sources; only
its uses around the `/schedule` and `/profile` routes appear).  Per
§4.4: on visit of a guarded route it evaluates `isAuthenticated()`; if
false it redirects to the login route before rendering guarded content;
no server round-trip.  The second component is the network trace of the
guard itself. -/
def protectedRoute (s : Storage) : GuardOutcome × List NetCall :=
  (if isAuthenticated s then .render else .redirect "/login", [])

/-- The in-source mount check of the `Profile` component
(`src/pages/AboutUs.jsx`): `if (!isAuthenticated()) {
window.location.href = '/login'; return; } fetchUserProfile();
fetchUserSchedules();`.  Returns the redirect target, if any, and the
names of the data loaders invoked afterwards. -/
def profileMount (s : Storage) : Option String × List String :=
  if !isAuthenticated s then (some "/login", [])
  else (none, ["fetchUserProfile", "fetchUserSchedules"])

/-! ## Logout (`src/pages/AboutUs.jsx`) -/

/-- The logout request built by `handleLogout`. -/
def logoutCall (token : String) : NetCall :=
  ⟨"http://localhost:8000/api/v1/auth/logout", "POST",
   [("Authorization", "Bearer " ++ token), ("Content-Type", "application/json")]⟩

/-- The outcome of `handleLogout`: issued calls, whether the catch
branch logged an error, the storage afterwards, and the redirect target. -/
structure LogoutResult where
  calls : List NetCall
  loggedError : Bool
  storage : Storage
  redirect : String
  deriving Repr

/-- `handleLogout` from `src/pages/AboutUs.jsx`:
`try { const token = localStorage.getItem('access_token'); if (token)
await fetch(<logout>, POST, bearer headers); } catch { log } finally {
removeToken(); window.location.href = '/login'; }`. -/
def handleLogout (net : Network) (s : Storage) : LogoutResult :=
  let (calls, logged) :=
    match rawGetItem s with
    | .error _ => (([] : List NetCall), true)
    | .ok tok =>
      if jsTruthy tok then
        let call := logoutCall (tok.getD "")
        match net call with
        | .ok _ => ([call], false)
        | .error _ => ([call], true)
      else ([], false)
  { calls := calls, loggedError := logged,
    storage := removeToken s, redirect := "/login" }

/-- A network that always resolves with the given response; used to
instantiate universally quantified theorems at concrete inputs. -/
def constNet (r : FetchResponse) : Network := fun _ => .ok r

/-- A network that always rejects; used to instantiate universally
quantified theorems at concrete inputs. -/
def downNet : Network := fun _ => .error "Failed to fetch"

/-- A concrete successful code-exchange response, matching the envelope
`{ status: "success", data: { access_token: "tok123" } }` of §6. -/
def okExchangeResp : FetchResponse :=
  ⟨true, 200,
   some (.obj [("status", .str "success"),
               ("data", .obj [("access_token", .str "tok123")])])⟩

/-! ## Supporting lemmas -/

lemma lookup_mergeObj (a b : List (String × String)) (k : String) :
    (mergeObj a b).lookup k = (b.lookup k).or (a.lookup k) := by
  induction a with
  | nil =>
    simp only [mergeObj, List.filter_nil, List.nil_append, List.lookup_nil]
    cases b.lookup k <;> simp
  | cons p as ih =>
    obtain ⟨k1, v1⟩ := p
    rcases hb : List.lookup k1 b with _ | w
    · have hmerge : mergeObj ((k1, v1) :: as) b = (k1, v1) :: mergeObj as b := by
        simp [mergeObj, List.filter_cons, hb]
      by_cases hk : k = k1
      · subst hk
        simp [hmerge, List.lookup_cons, hb]
      · have hkb : (k == k1) = false := by
          simp [hk]
        simp [hmerge, List.lookup_cons, hkb, ih]
    · have hmerge : mergeObj ((k1, v1) :: as) b = mergeObj as b := by
        simp [mergeObj, List.filter_cons, hb]
      by_cases hk : k = k1
      · subst hk
        simp [hmerge, List.lookup_cons, hb, ih]
      · have hkb : (k == k1) = false := by
          simp [hk]
        simp [hmerge, List.lookup_cons, hkb, ih]

lemma mergeObj_nil (a : List (String × String)) : mergeObj a [] = a := by
  simp [mergeObj]

end Clario

namespace Clario

/-! ## Claims about the token store -/

/-- C5: for every non-empty string T, when storage writes succeed,
`setToken(T)` followed by `getToken()` returns T, and
`isAuthenticated()` then returns true. -/
theorem setToken_getToken_roundtrip (T : String) (s : Storage)
    (hT : T ≠ "") (hs : s.failing = false) :
    getToken (setToken (some T) s) = some T ∧
    isAuthenticated (setToken (some T) s) = true := by
  simp [setToken, getToken, isAuthenticated, attempt, rawSetItem, rawGetItem,
        jsTruthy, hT, hs]

theorem setToken_getToken_roundtrip_witness :
    getToken (setToken (some "abc123") ⟨none, false⟩) = some "abc123" ∧
    isAuthenticated (setToken (some "abc123") ⟨none, false⟩) = true :=
  setToken_getToken_roundtrip "abc123" ⟨none, false⟩ (by decide) rfl

/-- C6: for every prior storage state, `removeToken()` followed by
`getToken()` returns the absent value and `isAuthenticated()` returns
false; `removeToken` is idempotent, and removing an absent token is not
an error (it returns normally, leaving the empty store unchanged). -/
theorem removeToken_clears (s : Storage) :
    getToken (removeToken s) = none ∧
    isAuthenticated (removeToken s) = false ∧
    removeToken (removeToken s) = removeToken s ∧
    removeToken ⟨none, false⟩ = ⟨none, false⟩ := by
  rcases s with ⟨tok, f⟩
  cases f <;>
    simp [removeToken, getToken, isAuthenticated, attempt, rawRemoveItem,
          rawGetItem, jsTruthy]

/-- C9: a storage-access failure is swallowed and never propagated:
`setToken` and `removeToken` complete, returning the state unchanged
rather than raising, and `getToken` returns the same absent value as on
a healthy empty store, so `isAuthenticated` degrades to false. -/
theorem storage_failure_swallowed (t : Option String) (s : Storage)
    (hs : s.failing = true) :
    setToken t s = s ∧
    removeToken s = s ∧
    getToken s = none ∧
    getToken ⟨none, false⟩ = none ∧
    isAuthenticated s = false := by
  have h1 : setToken t s = s := by
    cases ht : jsTruthy t with
    | false => simp [setToken, attempt, ht]
    | true => simp [setToken, attempt, ht, rawSetItem, hs]
  have h2 : removeToken s = s := by
    simp [removeToken, attempt, rawRemoveItem, hs]
  have h3 : getToken s = none := by
    simp [getToken, attempt, rawGetItem, hs]
  exact ⟨h1, h2, h3, rfl, by simp [isAuthenticated, h3, jsTruthy]⟩

theorem storage_failure_swallowed_witness :
    setToken (some "y") ⟨some "x", true⟩ = ⟨some "x", true⟩ ∧
    removeToken ⟨some "x", true⟩ = ⟨some "x", true⟩ ∧
    getToken ⟨some "x", true⟩ = none ∧
    getToken ⟨none, false⟩ = none ∧
    isAuthenticated ⟨some "x", true⟩ = false :=
  storage_failure_swallowed (some "y") ⟨some "x", true⟩ rfl

/-- C10: `setToken` applied to an empty or falsy token value is a no-op
on storage: the state is unchanged and `getToken` still returns
whatever was stored before. -/
theorem setToken_falsy_noop (t : Option String) (s : Storage)
    (ht : jsTruthy t = false) :
    setToken t s = s ∧ getToken (setToken t s) = getToken s := by
  have h : setToken t s = s := by
    simp [setToken, attempt, ht]
  exact ⟨h, by rw [h]⟩

/-! ## Claims about the request wrapper -/

/-- C2: `authenticatedRequest` with no stored token fails immediately
with "Not authenticated" and performs zero network calls; with a stored
(non-empty) token it is exactly the composition of `apiRequest` followed
by `handleApiResponse`, issuing the calls `apiRequest` issues. -/
theorem authenticatedRequest_spec (net : Network) (url method : String)
    (opts : List (String × String)) (s : Storage) :
    (getToken s = none →
      authenticatedRequest net url method opts s =
        (.error "Not authenticated", [])) ∧
    (∀ t, getToken s = some t → t ≠ "" →
      authenticatedRequest net url method opts s =
        ((apiRequest net url method opts s).1.bind handleApiResponse,
         (apiRequest net url method opts s).2)) := by
  constructor
  · intro h
    simp [authenticatedRequest, h, jsTruthy]
  · intro t ht hne
    have htr : jsTruthy (getToken s) = true := by simp [ht, jsTruthy, hne]
    simp only [authenticatedRequest, apiRequest, htr, Bool.not_true,
               Bool.false_eq_true, if_false]
    cases net ⟨url, method, buildHeaders opts (getToken s)⟩ <;> rfl

theorem authenticatedRequest_spec_witness :
    (authenticatedRequest downNet "u" "GET" [] ⟨none, false⟩ =
      (.error "Not authenticated", [])) ∧
    (authenticatedRequest downNet "u" "GET" [] ⟨some "abc123", false⟩ =
      ((apiRequest downNet "u" "GET" [] ⟨some "abc123", false⟩).1.bind
         handleApiResponse,
       (apiRequest downNet "u" "GET" [] ⟨some "abc123", false⟩).2)) :=
  ⟨(authenticatedRequest_spec downNet "u" "GET" [] ⟨none, false⟩).1 rfl,
   (authenticatedRequest_spec downNet "u" "GET" [] ⟨some "abc123", false⟩).2
     "abc123" rfl (by decide)⟩

/-- C3: every call issued by `apiRequest` carries the headers built by
`buildHeaders`; with a stored non-empty token T those headers contain
`Authorization: Bearer T`; `Content-Type: application/json` is supplied
unless the caller overrides it; caller-supplied headers other than
`Authorization` survive the merge; and with no stored token the headers
are just the default merged with the caller's — no `Authorization`
entry is attached. -/
theorem apiRequest_headers_spec (net : Network) (url method : String)
    (opts : List (String × String)) (s : Storage) :
    (apiRequest net url method opts s).2 =
      [⟨url, method, buildHeaders opts (getToken s)⟩] ∧
    (∀ t, getToken s = some t → t ≠ "" →
      (buildHeaders opts (getToken s)).lookup "Authorization" =
        some ("Bearer " ++ t)) ∧
    (opts.lookup "Content-Type" = none →
      (buildHeaders opts (getToken s)).lookup "Content-Type" =
        some "application/json") ∧
    (∀ k v, opts.lookup k = some v → k ≠ "Authorization" →
      (buildHeaders opts (getToken s)).lookup k = some v) ∧
    (getToken s = none →
      buildHeaders opts (getToken s) =
        mergeObj [("Content-Type", "application/json")] opts) := by
  refine ⟨rfl, ?_, ?_, ?_, ?_⟩
  · intro t ht hne
    simp [buildHeaders, ht, jsTruthy, hne, lookup_mergeObj, List.lookup_cons]
  · intro h
    cases hj : jsTruthy (getToken s) <;>
      simp [buildHeaders, hj, lookup_mergeObj, mergeObj_nil, h,
            List.lookup_cons]
  · intro k v hkv hkne
    have hk1 : (k == "Authorization") = false := by simp [hkne]
    cases hj : jsTruthy (getToken s) <;>
      simp [buildHeaders, hj, lookup_mergeObj, mergeObj_nil, hkv,
            List.lookup_cons, hk1]
  · intro h
    simp [buildHeaders, h, jsTruthy, mergeObj_nil]

theorem apiRequest_headers_spec_witness :
    (apiRequest downNet "u" "GET" [("X-Custom", "1")]
        ⟨some "abc123", false⟩).2 =
      [⟨"u", "GET",
        buildHeaders [("X-Custom", "1")] (getToken ⟨some "abc123", false⟩)⟩] ∧
    (buildHeaders [("X-Custom", "1")]
        (getToken ⟨some "abc123", false⟩)).lookup "Authorization" =
      some ("Bearer " ++ "abc123") ∧
    (buildHeaders [("X-Custom", "1")]
        (getToken ⟨some "abc123", false⟩)).lookup "Content-Type" =
      some "application/json" ∧
    (buildHeaders [("X-Custom", "1")]
        (getToken ⟨some "abc123", false⟩)).lookup "X-Custom" = some "1" ∧
    buildHeaders [("X-Custom", "1")] (getToken ⟨none, false⟩) =
      mergeObj [("Content-Type", "application/json")] [("X-Custom", "1")] :=
  ⟨(apiRequest_headers_spec downNet "u" "GET" [("X-Custom", "1")]
      ⟨some "abc123", false⟩).1,
   (apiRequest_headers_spec downNet "u" "GET" [("X-Custom", "1")]
      ⟨some "abc123", false⟩).2.1 "abc123" rfl (by decide),
   (apiRequest_headers_spec downNet "u" "GET" [("X-Custom", "1")]
      ⟨some "abc123", false⟩).2.2.1 (by decide),
   (apiRequest_headers_spec downNet "u" "GET" [("X-Custom", "1")]
      ⟨some "abc123", false⟩).2.2.2.1 "X-Custom" "1" (by decide) (by decide),
   (apiRequest_headers_spec downNet "u" "GET" [("X-Custom", "1")]
      ⟨none, false⟩).2.2.2.2 rfl⟩

/-- C4: `handleApiResponse` on a non-success response with JSON body
`{"message": "bad request"}` fails with message "bad request"; on a
non-success response with an unparseable body it fails with the generic
fallback "Network error"; on a success response it returns the parsed
JSON payload. -/
theorem handleApiResponse_spec (r : FetchResponse) :
    (r.ok = false →
      r.jsonBody = some (.obj [("message", .str "bad request")]) →
      handleApiResponse r = .error "bad request") ∧
    (r.ok = false → r.jsonBody = none →
      handleApiResponse r = .error "Network error") ∧
    (∀ v, r.ok = true → r.jsonBody = some v →
      handleApiResponse r = .ok v) := by
  obtain ⟨ok, status, body⟩ := r
  refine ⟨?_, ?_, ?_⟩
  · intro h1 h2
    simp only at h1 h2
    subst h1 h2
    rfl
  · intro h1 h2
    simp only at h1 h2
    subst h1 h2
    rfl
  · intro v h1 h2
    simp only at h1 h2
    subst h1 h2
    rfl

theorem handleApiResponse_spec_witness :
    handleApiResponse ⟨false, 400,
        some (.obj [("message", .str "bad request")])⟩ =
      .error "bad request" ∧
    handleApiResponse ⟨false, 500, none⟩ = .error "Network error" ∧
    handleApiResponse ⟨true, 200, some (.obj [("a", .num 1)])⟩ =
      .ok (.obj [("a", .num 1)]) :=
  ⟨(handleApiResponse_spec ⟨false, 400,
      some (.obj [("message", .str "bad request")])⟩).1 rfl rfl,
   (handleApiResponse_spec ⟨false, 500, none⟩).2.1 rfl rfl,
   (handleApiResponse_spec ⟨true, 200, some (.obj [("a", .num 1)])⟩).2.2
     (.obj [("a", .num 1)]) rfl rfl⟩

/-! ## Claims about the OAuth callback flow -/

/-- C1: when the callback query carries a (non-empty) error parameter,
the flow issues no code-exchange call and schedules navigation to
`/login`; a code-exchange call is only ever issued after the query
parameters validate (no error, non-empty code); and on the success path
the trace is exactly exchange call, then token stored, then navigation
to `/profile` scheduled — so the token is stored before the navigation
is scheduled — with the token written to storage. -/
theorem oauthCallback_flow_spec (net : Network)
    (query : List (String × String)) (s : Storage) :
    (jsTruthy (query.lookup "error") = true →
      (handleCallback net query s).events = [.navScheduled "/login" 3000] ∧
      ∀ u, CbEvent.exchangeCall u ∉ (handleCallback net query s).events) ∧
    (∀ u, CbEvent.exchangeCall u ∈ (handleCallback net query s).events →
      jsTruthy (query.lookup "error") = false ∧
      jsTruthy (query.lookup "code") = true) ∧
    (∀ c result t,
      jsTruthy (query.lookup "error") = false →
      query.lookup "code" = some c → c ≠ "" →
      (net ⟨exchangeUrl c, "GET", []⟩).bind handleApiResponse = .ok result →
      result.field "status" = some (.str "success") →
      (result.field "data").bind (fun d => d.field "access_token") =
        some (.str t) →
      t ≠ "" →
      (handleCallback net query s).events =
        [.exchangeCall (exchangeUrl c), .tokenStored t,
         .navScheduled "/profile" 1500] ∧
      (handleCallback net query s).storage = setToken (some t) s) := by
  refine ⟨?_, ?_, ?_⟩
  · intro he
    simp [handleCallback, he, cbFail]
  · intro u hu
    by_cases he : jsTruthy (query.lookup "error") = true
    · exfalso
      simp [handleCallback, he, cbFail] at hu
    · have he' : jsTruthy (query.lookup "error") = false := by
        simpa using he
      by_cases hc : jsTruthy (query.lookup "code") = true
      · exact ⟨he', hc⟩
      · exfalso
        have hc' : jsTruthy (query.lookup "code") = false := by
          simpa using hc
        simp [handleCallback, he', hc', cbFail] at hu
  · intro c result t he hc hcne hnet hstatus htok htne
    have hcode : jsTruthy (query.lookup "code") = true := by
      simp [hc, jsTruthy, hcne]
    rcases hn : net ⟨exchangeUrl c, "GET", []⟩ with e | resp
    · rw [hn] at hnet
      simp [Except.bind] at hnet
    · rw [hn] at hnet
      have hresp : handleApiResponse resp = .ok result := by
        simpa [Except.bind] using hnet
      have hjc : jsTruthy (some c) = true := by simp [jsTruthy, hcne]
      simp [handleCallback, he, hcode, hc, hjc, hn, hresp, hstatus, htok,
            JsValue.truthy, JsValue.asString, htne, cbFail]

theorem oauthCallback_flow_spec_witness :
    (handleCallback (constNet okExchangeResp)
        [("error", "access_denied")] ⟨none, false⟩).events =
      [.navScheduled "/login" 3000] ∧
    (handleCallback (constNet okExchangeResp)
        [("code", "XYZ")] ⟨none, false⟩).events =
      [.exchangeCall (exchangeUrl "XYZ"), .tokenStored "tok123",
       .navScheduled "/profile" 1500] ∧
    (handleCallback (constNet okExchangeResp)
        [("code", "XYZ")] ⟨none, false⟩).storage =
      setToken (some "tok123") ⟨none, false⟩ :=
  ⟨((oauthCallback_flow_spec (constNet okExchangeResp)
      [("error", "access_denied")] ⟨none, false⟩).1 (by decide)).1,
   (oauthCallback_flow_spec (constNet okExchangeResp)
      [("code", "XYZ")] ⟨none, false⟩).2.2 "XYZ"
     (.obj [("status", .str "success"),
            ("data", .obj [("access_token", .str "tok123")])])
     "tok123" (by decide) rfl (by decide) rfl rfl rfl (by decide)⟩

/-! ## Claims about the route guard and logout -/

/-- C7: the route guard renders the guarded content when
`isAuthenticated()` is true and redirects to `/login` when it is false,
issuing no network request in either case; the in-source `Profile`
mount check likewise redirects to `/login` and invokes no data loader
when unauthenticated. -/
theorem routeGuard_spec (s : Storage) :
    (isAuthenticated s = true → protectedRoute s = (.render, [])) ∧
    (isAuthenticated s = false →
      protectedRoute s = (.redirect "/login", [])) ∧
    (protectedRoute s).2 = [] ∧
    (isAuthenticated s = false → profileMount s = (some "/login", [])) := by
  refine ⟨?_, ?_, rfl, ?_⟩ <;>
    intro h <;> simp [protectedRoute, profileMount, h]

theorem routeGuard_spec_witness :
    protectedRoute ⟨some "abc123", false⟩ = (.render, []) ∧
    protectedRoute ⟨none, false⟩ = (.redirect "/login", []) ∧
    profileMount ⟨none, false⟩ = (some "/login", []) :=
  ⟨(routeGuard_spec ⟨some "abc123", false⟩).1 rfl,
   (routeGuard_spec ⟨none, false⟩).2.1 rfl,
   (routeGuard_spec ⟨none, false⟩).2.2.2 rfl⟩

/-- C8: `handleLogout` always removes the token and redirects to
`/login`; when a token is stored it issues the logout call with a
bearer `Authorization` header; with no stored token (healthy storage)
no call is issued; and a rejected logout call is logged while the
removal and redirect still happen. -/
theorem handleLogout_spec (net : Network) (s : Storage) :
    (handleLogout net s).storage = removeToken s ∧
    (handleLogout net s).redirect = "/login" ∧
    (∀ t, getToken s = some t → t ≠ "" →
      (handleLogout net s).calls = [logoutCall t] ∧
      (logoutCall t).headers.lookup "Authorization" =
        some ("Bearer " ++ t)) ∧
    (getToken s = none → s.failing = false →
      (handleLogout net s).calls = []) ∧
    (∀ t e, getToken s = some t → t ≠ "" → net (logoutCall t) = .error e →
      (handleLogout net s).loggedError = true) := by
  have hget : ∀ t, getToken s = some t →
      s.failing = false ∧ s.token = some t := by
    intro t ht
    cases hf : s.failing with
    | true => simp [getToken, attempt, rawGetItem, hf] at ht
    | false =>
      refine ⟨rfl, ?_⟩
      simpa [getToken, attempt, rawGetItem, hf] using ht
  refine ⟨rfl, rfl, ?_, ?_, ?_⟩
  · intro t ht hne
    obtain ⟨hf, htok⟩ := hget t ht
    have hj : jsTruthy (some t) = true := by simp [jsTruthy, hne]
    refine ⟨?_, by simp [logoutCall]⟩
    cases hn : net (logoutCall t) <;>
      simp [handleLogout, rawGetItem, hf, htok, hj, hn]
  · intro ht hf
    have htok : s.token = none := by
      simpa [getToken, attempt, rawGetItem, hf] using ht
    simp [handleLogout, rawGetItem, hf, htok, jsTruthy]
  · intro t e ht hne hn
    obtain ⟨hf, htok⟩ := hget t ht
    have hj : jsTruthy (some t) = true := by simp [jsTruthy, hne]
    simp [handleLogout, rawGetItem, hf, htok, hj, hn]

theorem handleLogout_spec_witness :
    (handleLogout downNet ⟨some "abc123", false⟩).storage =
      removeToken ⟨some "abc123", false⟩ ∧
    (handleLogout downNet ⟨some "abc123", false⟩).redirect = "/login" ∧
    (handleLogout downNet ⟨some "abc123", false⟩).calls =
      [logoutCall "abc123"] ∧
    (logoutCall "abc123").headers.lookup "Authorization" =
      some ("Bearer " ++ "abc123") ∧
    (handleLogout downNet ⟨some "abc123", false⟩).loggedError = true :=
  ⟨(handleLogout_spec downNet ⟨some "abc123", false⟩).1,
   (handleLogout_spec downNet ⟨some "abc123", false⟩).2.1,
   ((handleLogout_spec downNet ⟨some "abc123", false⟩).2.2.1 "abc123" rfl
     (by decide)).1,
   ((handleLogout_spec downNet ⟨some "abc123", false⟩).2.2.1 "abc123" rfl
     (by decide)).2,
   (handleLogout_spec downNet ⟨some "abc123", false⟩).2.2.2.2 "abc123"
     "Failed to fetch" rfl (by decide) rfl⟩

theorem setToken_falsy_noop_witness :
    (setToken (some "") ⟨some "abc123", false⟩ = ⟨some "abc123", false⟩ ∧
      getToken (setToken (some "") ⟨some "abc123", false⟩) =
        getToken ⟨some "abc123", false⟩) ∧
    getToken ⟨some "abc123", false⟩ = some "abc123" :=
  ⟨setToken_falsy_noop (some "") ⟨some "abc123", false⟩ (by decide), rfl⟩

end Clario
